import Mathlib

/-!
Verification of the manim-orchestrator-api backend (Go) against its
natural-language specification.

The relational store is shallowly embedded as a list of rows; each SQL query
function from `pkg/db/queries` becomes a recursive function over that list.
HTTP handlers from `pkg/handlers` become pure functions from a store (plus an
oracle environment describing the behaviour of the two external collaborators,
the LLM and the render service) to a new store and a response.  Machine- and
wire-level concerns (JSON encoding, UUID formatting, timestamps) are abstracted
exactly where the claims do not touch them.
-/

set_option maxHeartbeats 1000000

/-- Embeds `db.ManimProject` (src/pkg/db/models.go): one row of the
`manim_projects` table.  UUIDs are modelled as naturals; `sql.NullString`
becomes `Option String`.  The `created_at`/`updated_at` timestamps and the
`parent_project_id` column are not touched by any claim and are omitted. -/
structure ManimProject where
  id : Nat
  userID : Nat
  name : String
  description : String
  prompt : String
  renderStatus : String
  videoURL : Option String
deriving DecidableEq, Repr

/-- Embeds `queries.FindManimProjectByID`: `SELECT ... WHERE id = $1`
(first matching row, `nil` when absent). -/
def findManimProjectByID : List ManimProject → Nat → Option ManimProject
  | [], _ => none
  | q :: t, pid => if q.id = pid then some q else findManimProjectByID t pid

/-- Embeds `queries.FindManimProjectByNameAndUserID`:
`SELECT ... WHERE name = $1 AND user_id = $2`. -/
def findManimProjectByNameAndUserID : List ManimProject → String → Nat → Option ManimProject
  | [], _, _ => none
  | q :: t, name, uid =>
    if q.name = name ∧ q.userID = uid then some q
    else findManimProjectByNameAndUserID t name uid

/-- Embeds `queries.FindManimProjectsByUserID`:
`SELECT ... WHERE user_id = $1` (the `ORDER BY created_at` clause is dropped
together with the timestamps). -/
def findManimProjectsByUserID : List ManimProject → Nat → List ManimProject
  | [], _ => []
  | q :: t, uid =>
    if q.userID = uid then q :: findManimProjectsByUserID t uid
    else findManimProjectsByUserID t uid

/-- Whether some row matches `id = pid AND user_id = uid` (the `WHERE` clause
shared by the `UPDATE` and `DELETE` statements of `pkg/db/queries`). -/
def hasRowIdUser : List ManimProject → Nat → Nat → Bool
  | [], _, _ => false
  | q :: t, pid, uid =>
    if q.id = pid ∧ q.userID = uid then true else hasRowIdUser t pid uid

/-- Whether some row matches `user_id = uid AND name = name` — the unique index
`idx_manim_projects_user_id_name` from the migration
`20250606141609_create_manim_projects_table.up.sql`. -/
def hasRowUserName : List ManimProject → Nat → String → Bool
  | [], _, _ => false
  | q :: t, uid, name =>
    if q.userID = uid ∧ q.name = name then true else hasRowUserName t uid name

/-- The row rewrite performed by the SQL `UPDATE ... WHERE id = :id AND
user_id = :user_id` of `queries.UpdateManimProject`: every matching row becomes
`p`. -/
def updateRows (p : ManimProject) : List ManimProject → List ManimProject
  | [] => []
  | q :: t => (if q.id = p.id ∧ q.userID = p.userID then p else q) :: updateRows p t

/-- Embeds `queries.UpdateManimProject`: `rowsAffected == 0` makes the Go
function return `sql.ErrNoRows`, modelled as `none`. -/
def updateManimProject (s : List ManimProject) (p : ManimProject) : Option (List ManimProject) :=
  if hasRowIdUser s p.id p.userID then some (updateRows p s) else none

/-- The row removal performed by `DELETE FROM manim_projects WHERE id = $1 AND
user_id = $2` of `queries.DeleteManimProject`. -/
def deleteRows : List ManimProject → Nat → Nat → List ManimProject
  | [], _, _ => []
  | q :: t, pid, uid =>
    if q.id = pid ∧ q.userID = uid then deleteRows t pid uid
    else q :: deleteRows t pid uid

/-- Embeds `queries.DeleteManimProject`: `rowsAffected == 0` makes the Go
function return `sql.ErrNoRows`, modelled as `none`. -/
def deleteManimProjectQuery (s : List ManimProject) (pid uid : Nat) : Option (List ManimProject) :=
  if hasRowIdUser s pid uid then some (deleteRows s pid uid) else none

/-- Embeds `queries.CreateManimProject` together with the DB-level unique index
`idx_manim_projects_user_id_name`: the `INSERT` fails (modelled as `none`) when
a row with the same `(user_id, name)` pair already exists; otherwise the row is
appended with the generated id.  The query defaults an empty render status to
`"pending"` exactly as the Go function does. -/
def createManimProjectQuery (s : List ManimProject) (project : ManimProject) (newId : Nat) :
    Option (ManimProject × List ManimProject) :=
  let project :=
    if project.renderStatus = "" then { project with renderStatus := "pending" } else project
  if hasRowUserName s project.userID project.name then none
  else
    let created := { project with id := newId }
    some (created, s ++ [created])

/-- The JSON envelope of `utils.JSONResponse` (src/pkg/utils/http_response.go),
restricted to the observable facts the claims are about: the HTTP status code,
the `success` flag, and whether an `error` field is present (the field carries
`omitempty`, so it is absent whenever the Go value is `nil`). -/
structure HTTPResponse where
  statusCode : Nat
  success : Bool
  hasError : Bool
deriving DecidableEq, Repr

/-- Embeds `utils.ResponseWithSuccess`: always `success: true`, never an
`error` field. -/
def responseWithSuccess (statusCode : Nat) : HTTPResponse :=
  { statusCode := statusCode, success := true, hasError := false }

/-- Embeds `utils.ResponseWithError`: always `success: false`; the `error`
field is present exactly when non-nil details were supplied. -/
def responseWithError (statusCode : Nat) (hasDetails : Bool) : HTTPResponse :=
  { statusCode := statusCode, success := false, hasError := hasDetails }

/-- One-sided whitespace stripping over a character list. -/
def dropLeadingSpace : List Char → List Char
  | [] => []
  | c :: t => if c.isWhitespace then dropLeadingSpace t else c :: t

/-- Go `strings.TrimSpace`: strip leading and trailing whitespace.  (Defined
over the character list so that it evaluates by kernel reduction.) -/
def goTrimSpace (s : String) : String :=
  ⟨(dropLeadingSpace ((dropLeadingSpace s.data).reverse)).reverse⟩

-- Handler embeddings (src/pkg/handlers/manim_projects.go and the newer copy
-- of the same handlers that ships inside src/pkg/services/jwt_service.go).

/-- Embeds `handlers.RenderCallbackRequest`, restricted to the fields the
callback handler branches on (`message`/`error_details` are only logged). -/
structure RenderCallbackRequest where
  projectID : Nat
  status : String
  videoURL : String
deriving DecidableEq, Repr

/-- Embeds `Handlers.HandleRenderCallback`: fetch the project, overwrite its
render status with the callback status, set the video URL only for a
`"completed"` status with a non-empty, non-`"N/A"` URL, clear it otherwise,
then persist. -/
def handleRenderCallback (s : List ManimProject) (cb : RenderCallbackRequest) :
    List ManimProject × HTTPResponse :=
  match findManimProjectByID s cb.projectID with
  | none => (s, responseWithError 404 false)
  | some project =>
    let p1 := { project with renderStatus := cb.status }
    let p2 :=
      if cb.status = "completed" then
        if cb.videoURL ≠ "" ∧ cb.videoURL ≠ "N/A" then
          { p1 with videoURL := some cb.videoURL }
        else
          { p1 with videoURL := none }
      else
        { p1 with videoURL := none }
    match updateManimProject s p2 with
    | none => (s, responseWithError 500 false)
    | some s2 => (s2, responseWithSuccess 200)

/-- Oracle for the LLM call `LLMClient.GenerateManimCode` made by the trigger
handler: either generated code or an error. -/
inductive LLMResult
  | ok (code : String)
  | failure
deriving DecidableEq, Repr

/-- Oracle for the render service's reply to the `POST <renderer>/render`
call: the transport either fails or yields a status code. -/
inductive RendererReply
  | unreachable
  | reply (statusCode : Nat)
deriving DecidableEq, Repr

/-- The environment a single `TriggerManimGenerationAndRender` request runs
in: what the LLM returns, whether `http.NewRequest` fails, and what the render
service answers. -/
structure TriggerEnv where
  llm : LLMResult
  requestConstructionFails : Bool
  renderer : RendererReply
deriving DecidableEq, Repr

/-- Everything observable about one run of the trigger handler: the store it
leaves behind, the HTTP status and success flag of its response, the `status`
string inside the success body (only present on the 202 path), and whether the
outbound LLM and render-service calls were made. -/
structure TriggerOutcome where
  store : List ManimProject
  httpStatus : Nat
  success : Bool
  bodyStatus : Option String
  llmCalled : Bool
  rendererCalled : Bool
deriving DecidableEq, Repr

/-- Embeds `Handlers.TriggerManimGenerationAndRender`: fetch and ownership
check, empty-prompt rejection, best-effort `"generating"` write, LLM call,
request construction, render-service call, and the `failed: <stage>` terminal
writes on each error path.  Status writes are best-effort in the source
(`queries.UpdateManimProject` errors are logged and ignored), hence `getD`. -/
def triggerManimGenerationAndRender (s : List ManimProject) (pid uid : Nat)
    (env : TriggerEnv) : TriggerOutcome :=
  match findManimProjectByID s pid with
  | none => ⟨s, 404, false, none, false, false⟩
  | some project =>
    if project.userID = uid then
      if (goTrimSpace project.prompt) = "" then
        ⟨s, 400, false, none, false, false⟩
      else
        let p1 := { project with renderStatus := "generating" }
        let s1 := (updateManimProject s p1).getD s
        match env.llm with
        | .failure =>
          let p2 := { p1 with renderStatus := "failed: code_gen_error" }
          ⟨(updateManimProject s1 p2).getD s1, 500, false, none, true, false⟩
        | .ok _ =>
          if env.requestConstructionFails then
            let p2 := { p1 with renderStatus := "failed: renderer_req_error" }
            ⟨(updateManimProject s1 p2).getD s1, 500, false, none, true, false⟩
          else
            match env.renderer with
            | .unreachable =>
              let p2 := { p1 with renderStatus := "failed: renderer_comm_error" }
              ⟨(updateManimProject s1 p2).getD s1, 500, false, none, true, true⟩
            | .reply statusCode =>
              if statusCode = 202 then
                ⟨s1, 202, true, some "rendering_initiated", true, true⟩
              else
                let p2 :=
                  { p1 with renderStatus := "failed: renderer_status_" ++ toString statusCode }
                ⟨(updateManimProject s1 p2).getD s1, 500, false, none, true, true⟩
    else ⟨s, 403, false, none, false, false⟩

/-- Embeds `handlers.DeleteManimProject`: no fetch, a single ownership-scoped
`DELETE`; `sql.ErrNoRows` becomes 404, success becomes 204 No Content. -/
def deleteManimProjectHandler (s : List ManimProject) (pid uid : Nat) :
    List ManimProject × HTTPResponse :=
  match deleteManimProjectQuery s pid uid with
  | none => (s, responseWithError 404 false)
  | some s2 => (s2, responseWithSuccess 204)

/-- Embeds `handlers.CreateProjectRequest` (body field validation is outside
the model). -/
structure CreateProjectRequest where
  name : String
  description : String
  prompt : String
deriving DecidableEq, Repr

/-- Embeds `handlers.CreateManimProject`: the duplicate check uses the raw
request name, while the stored row carries the `strings.TrimSpace`d fields and
render status `"pending"`. -/
def createManimProjectHandler (s : List ManimProject) (uid : Nat)
    (req : CreateProjectRequest) (newId : Nat) : List ManimProject × HTTPResponse :=
  match findManimProjectByNameAndUserID s req.name uid with
  | some _ => (s, responseWithError 409 false)
  | none =>
    let project : ManimProject :=
      { id := 0, userID := uid, name := (goTrimSpace req.name), description := (goTrimSpace req.description),
        prompt := (goTrimSpace req.prompt), renderStatus := "pending", videoURL := none }
    match createManimProjectQuery s project newId with
    | none => (s, responseWithError 500 false)
    | some (_, s2) => (s2, responseWithSuccess 201)

/-- Embeds `handlers.UpdateProjectRequest`: pointer fields become options. -/
structure UpdateProjectRequest where
  name : Option String
  description : Option String
  prompt : Option String
deriving DecidableEq, Repr

/-- The field assignments of `handlers.UpdateManimProject` once the conflict
check has passed: each supplied field is trimmed and written, the rest keep
their fetched values. -/
def applyUpdateFields (ex : ManimProject) (req : UpdateProjectRequest) : ManimProject :=
  let e1 :=
    match req.name with
    | some n => { ex with name := (goTrimSpace n) }
    | none => ex
  let e2 :=
    match req.description with
    | some d => { e1 with description := (goTrimSpace d) }
    | none => e1
  match req.prompt with
  | some p => { e2 with prompt := (goTrimSpace p) }
  | none => e2

/-- Outcome of the update handler, recording also whether the per-owner name
uniqueness check (`queries.FindManimProjectByNameAndUserID`) was executed. -/
structure UpdateOutcome where
  store : List ManimProject
  response : HTTPResponse
  nameConflictChecked : Bool
deriving DecidableEq, Repr

/-- The tail of `handlers.UpdateManimProject`: persist the modified row;
`sql.ErrNoRows` becomes 404, success 200. -/
def updateFinish (s : List ManimProject) (p : ManimProject) (checked : Bool) : UpdateOutcome :=
  match updateManimProject s p with
  | none => ⟨s, responseWithError 404 false, checked⟩
  | some s2 => ⟨s2, responseWithSuccess 200, checked⟩

/-- Embeds `handlers.UpdateManimProject`: fetch, ownership check, conditional
name-conflict check (only when the trimmed new name differs from the stored
name, and only a conflicting row other than the row itself raises 409),
partial field application, persist. -/
def updateManimProjectHandler (s : List ManimProject) (pid uid : Nat)
    (req : UpdateProjectRequest) : UpdateOutcome :=
  match findManimProjectByID s pid with
  | none => ⟨s, responseWithError 404 false, false⟩
  | some existingProject =>
    if existingProject.userID = uid then
      match req.name with
      | some n =>
        if (goTrimSpace n) ≠ existingProject.name then
          match findManimProjectByNameAndUserID s (goTrimSpace n) uid with
          | some conflictProject =>
            if conflictProject.id ≠ existingProject.id then
              ⟨s, responseWithError 409 false, true⟩
            else updateFinish s (applyUpdateFields existingProject req) true
          | none => updateFinish s (applyUpdateFields existingProject req) true
        else updateFinish s (applyUpdateFields existingProject req) false
      | none => updateFinish s (applyUpdateFields existingProject req) false
    else ⟨s, responseWithError 403 false, false⟩

-- String utilities mirroring the Go standard library functions the handlers
-- use (`strings.Contains`, `strings.Replace` with count 1), over `List Char`.

/-- Whether `p` is a prefix of `s` (Boolean, by character comparison). -/
def isPrefixL : List Char → List Char → Bool
  | [], _ => true
  | _ :: _, [] => false
  | a :: p, b :: s => if a = b then isPrefixL p s else false

/-- Whether `sub` occurs as a contiguous substring of `s`; mirrors Go's
`strings.Contains` (an empty `sub` always matches). -/
def hasSub : List Char → List Char → Bool
  | [], sub => isPrefixL sub []
  | c :: t, sub => if isPrefixL sub (c :: t) then true else hasSub t sub

/-- Replace the first occurrence of `old` in the third argument by `new`;
mirrors Go's `strings.Replace(s, old, new, 1)` (an empty `old` inserts `new`
at the front). -/
def replFirst (old new : List Char) : List Char → List Char
  | [] => if old.isEmpty then new else []
  | c :: t =>
    if isPrefixL old (c :: t) then new ++ (c :: t).drop old.length
    else c :: replFirst old new t

/-- Go `strings.Contains` on `String`. -/
def goContains (s sub : String) : Bool := hasSub s.data sub.data

/-- Go `strings.Replace(s, old, new, 1)` on `String`. -/
def goReplaceOnce (s old new : String) : String := ⟨replFirst old.data new.data s.data⟩

-- List/get project handlers (the copy in src/pkg/services/jwt_service.go,
-- which carries the R2 URL transformation in the list path).

/-- Embeds `handlers.ProjectResponse` minus the formatted timestamps; a stored
NULL video URL is rendered as the empty string (`newProjectResponse`). -/
structure ProjectResponse where
  id : Nat
  userID : Nat
  name : String
  description : String
  prompt : String
  renderStatus : String
  videoURL : String
deriving DecidableEq, Repr

/-- Embeds `newProjectResponse` (src/pkg/services/jwt_service.go). -/
def newProjectResponse (p : ManimProject) : ProjectResponse :=
  { id := p.id, userID := p.userID, name := p.name, description := p.description,
    prompt := p.prompt, renderStatus := p.renderStatus, videoURL := p.videoURL.getD "" }

/-- The hard-coded internal R2 development domain tested with
`strings.Contains` in `GetUserManimProjects`. -/
def internalR2Domain : String := "41eca3477bd94f0eb869bef997e35147.r2.dev"

/-- The full `https://` URL prefix replaced in `GetUserManimProjects`. -/
def internalR2Base : String := "https://41eca3477bd94f0eb869bef997e35147.r2.dev"

/-- The public R2 domain substituted in `GetUserManimProjects`. -/
def publicR2Base : String := "https://pub-b0b0ca8b1fc2487b82486c56d37c2667.r2.dev"

/-- The per-row URL transformation block of `GetUserManimProjects`
(src/pkg/services/jwt_service.go, the list endpoint): rewrite the internal R2
domain to the public one, first occurrence only. -/
def transformListVideoURL (pr : ProjectResponse) : ProjectResponse :=
  if pr.videoURL ≠ "" ∧ goContains pr.videoURL internalR2Domain then
    { pr with videoURL := goReplaceOnce pr.videoURL internalR2Base publicR2Base }
  else pr

/-- Embeds `GetUserManimProjects` (the jwt_service.go copy): fetch the
caller's rows and answer transformed responses. -/
def getUserManimProjects (s : List ManimProject) (uid : Nat) : List ProjectResponse :=
  (findManimProjectsByUserID s uid).map (fun p => transformListVideoURL (newProjectResponse p))

/-- Embeds `GetManimProjectByID`: fetch by id, 404 when absent, 403 on owner
mismatch, otherwise the untransformed `newProjectResponse`. -/
def getManimProjectByIDHandler (s : List ManimProject) (pid uid : Nat) :
    HTTPResponse × Option ProjectResponse :=
  match findManimProjectByID s pid with
  | none => (responseWithError 404 false, none)
  | some p =>
    if p.userID = uid then (responseWithSuccess 200, some (newProjectResponse p))
    else (responseWithError 403 false, none)

-- Merge-videos handler (src/pkg/services/jwt_service.go, MergeVideosHandler).

/-- Oracle environment for one `MergeVideosHandler` request: configuration
presence, reachability and reply of the Python renderer, body readability and
parseability, and whether the upsert into `merged_videos` fails (the
`db.DB == nil` guard is folded into the same Internal-error fate). -/
structure MergeEnv where
  rendererURLConfigured : Bool
  upstreamUnreachable : Bool
  upstreamStatusCode : Nat
  readBodyFails : Bool
  errorBodyHasErrorField : Bool
  successBodyParses : Bool
  dbRecordFails : Bool
deriving DecidableEq, Repr

/-- Embeds `MergeVideosHandler`: empty id list → 400; missing renderer URL →
500; unreachable renderer → 502; unreadable body → 500; a non-200 reply is
forwarded with the upstream status code (error details attached only when the
upstream error body did not decode to an `error` field); unparseable success
body → 500; failed upsert → 500; otherwise 200. -/
def mergeVideosHandler (ids : List String) (env : MergeEnv) : HTTPResponse :=
  if ids.isEmpty then responseWithError 400 false
  else if env.rendererURLConfigured = false then responseWithError 500 false
  else if env.upstreamUnreachable then responseWithError 502 false
  else if env.readBodyFails then responseWithError 500 false
  else if env.upstreamStatusCode ≠ 200 then
    if env.errorBodyHasErrorField then responseWithError env.upstreamStatusCode false
    else responseWithError env.upstreamStatusCode true
  else if env.successBodyParses = false then responseWithError 500 false
  else if env.dbRecordFails then responseWithError 500 false
  else responseWithSuccess 200

-- JWT issuance and validation (src/pkg/services/jwt_service.go, first part).

/-- Embeds `services.Claims`: the custom fields plus the registered claims
`GenerateToken` fills in.  Times are seconds as naturals; the user UUID is a
natural and its `String()` form is its decimal print. -/
structure JWTClaims where
  userID : Nat
  email : String
  username : String
  expiresAt : Nat
  issuedAt : Nat
  notBefore : Nat
  issuer : String
  subject : String
deriving DecidableEq, Repr

/-- The signing algorithm recorded in a token header; `GenerateToken` uses
HS256 and `ValidateToken` rejects any non-HMAC method. -/
inductive JWTSigningMethod
  | hmacSHA256
  | nonHMAC
deriving DecidableEq, Repr

/-- The HMAC signature is modelled abstractly as the (secret, payload) pair:
an injective function of both, which is all the round-trip claim needs. -/
def signHMAC (secret : String) (payload : JWTClaims) : String × JWTClaims :=
  (secret, payload)

/-- A signed token: header method, claims payload, signature. -/
structure JWTToken where
  method : JWTSigningMethod
  claims : JWTClaims
  signature : String × JWTClaims
deriving DecidableEq, Repr

/-- The fixed token lifetime of `GenerateToken`: 24 hours, in seconds. -/
def tokenLifetimeSeconds : Nat := 24 * 60 * 60

/-- Embeds `services.GenerateToken`: claims carry the user id, email and
username, expiry now+24h, issued-at and not-before now, issuer
`"manim-orchestrator-api"`, subject the user id's string form; signed with
HS256 under the configured secret. -/
def generateToken (now : Nat) (jwtSecret : String) (userID : Nat)
    (email username : String) : JWTToken :=
  let claims : JWTClaims :=
    { userID := userID, email := email, username := username,
      expiresAt := now + tokenLifetimeSeconds, issuedAt := now, notBefore := now,
      issuer := "manim-orchestrator-api", subject := toString userID }
  { method := .hmacSHA256, claims := claims, signature := signHMAC jwtSecret claims }

/-- Embeds `services.ValidateToken`: reject a non-HMAC method, a bad
signature, or a token outside its `[nbf, exp)` window; otherwise yield the
embedded claims. -/
def validateToken (now : Nat) (jwtSecret : String) (token : JWTToken) : Option JWTClaims :=
  if token.method ≠ JWTSigningMethod.hmacSHA256 then none
  else if token.signature ≠ signHMAC jwtSecret token.claims then none
  else if ¬(token.claims.notBefore ≤ now ∧ now < token.claims.expiresAt) then none
  else some token.claims

-- User handlers (src/unnamed/part_000: LoginUser, RegisterUser, DeleteUser).

/-- Embeds `db.User`, restricted to the fields `DeleteUser` consults. -/
structure UserRec where
  id : Nat
  email : String
  username : String
deriving DecidableEq, Repr

/-- Embeds `queries.FindUserByEmail`: `SELECT ... WHERE email = $1`. -/
def findUserByEmail : List UserRec → String → Option UserRec
  | [], _ => none
  | u :: t, e => if u.email = e then some u else findUserByEmail t e

/-- The row removal of `queries.DeleteUser` (`DELETE FROM users WHERE id =
$1`; a zero row count is swallowed, so the query never fails). -/
def deleteUserRows : List UserRec → Nat → List UserRec
  | [], _ => []
  | u :: t, i => if u.id = i then deleteUserRows t i else u :: deleteUserRows t i

/-- Embeds `handlers.DeleteUser` (src/unnamed/part_000): look the caller up by
the token's verified email; when the row is gone answer through
`ResponseWithSuccess` with HTTP 404; otherwise delete and answer 204. -/
def deleteUserHandler (users : List UserRec) (verifiedEmail : String) :
    List UserRec × HTTPResponse :=
  match findUserByEmail users verifiedEmail with
  | none => (users, responseWithSuccess 404)
  | some u => (deleteUserRows users u.id, responseWithSuccess 204)

/-- The HTTP status codes passed to `utils.ResponseWithSuccess` at every call
site in the repository other than the `DeleteUser` user-absent branch, in
source order: login (200), register (201), delete-user success (204), create
project (201), list projects (200), get project (200), update project (200),
delete project (204), trigger render (202), render callback (200), merge
videos (200), profile (200, src/cmd/api/main.go). -/
def successResponsePathStatuses : List Nat :=
  [200, 201, 204, 201, 200, 200, 200, 204, 202, 200, 200, 200]

-- Concrete stores and requests used to instantiate the theorems below.

/-- A one-row store whose project is mid-render. -/
def cbStoreA : List ManimProject :=
  [{ id := 1, userID := 7, name := "Demo", description := "d", prompt := "draw a circle",
     renderStatus := "generating", videoURL := none }]

/-- A completed-render callback carrying a real URL. -/
def cbReqCompleted : RenderCallbackRequest :=
  { projectID := 1, status := "completed", videoURL := "https://cdn.example/v.mp4" }

/-- A one-row store whose project has a whitespace-only prompt. -/
def trigStoreEmptyPrompt : List ManimProject :=
  [{ id := 1, userID := 7, name := "P", description := "d", prompt := "   ",
     renderStatus := "pending", videoURL := none }]

/-- A one-row store with a renderable prompt. -/
def trigStoreReady : List ManimProject :=
  [{ id := 1, userID := 7, name := "P", description := "d", prompt := "draw a circle",
     renderStatus := "pending", videoURL := none }]

/-- An environment in which every external step succeeds. -/
def trigEnvHappy : TriggerEnv :=
  { llm := .ok "code", requestConstructionFails := false, renderer := .reply 202 }

/-- An environment in which the LLM call errors. -/
def trigEnvLLMFail : TriggerEnv :=
  { llm := .failure, requestConstructionFails := false, renderer := .reply 202 }

/-- A one-row store owned by user 2 (queried below by user 3). -/
def delStoreOtherOwner : List ManimProject :=
  [{ id := 1, userID := 2, name := "Demo", description := "d", prompt := "p",
     renderStatus := "pending", videoURL := none }]

/-- A one-row store in which user 7 already owns a project named "Demo". -/
def createStoreDemo : List ManimProject :=
  [{ id := 1, userID := 7, name := "Demo", description := "", prompt := "p",
     renderStatus := "pending", videoURL := none }]

/-- A creation request whose name carries surrounding whitespace. -/
def createReqPadded : CreateProjectRequest :=
  { name := " Demo ", description := "x", prompt := "some prompt" }

/-- A one-row store used to exercise the update handler. -/
def updStoreOld : List ManimProject :=
  [{ id := 1, userID := 7, name := "Old", description := "d0", prompt := "p0",
     renderStatus := "pending", videoURL := none }]

/-- A partial update supplying only the name. -/
def updReqNameOnly : UpdateProjectRequest :=
  { name := some "New", description := none, prompt := none }

/-- A merge environment whose upstream replies 503. -/
def mergeEnv503 : MergeEnv :=
  { rendererURLConfigured := true, upstreamUnreachable := false, upstreamStatusCode := 503,
    readBodyFails := false, errorBodyHasErrorField := false, successBodyParses := true,
    dbRecordFails := false }

/-- A merge environment whose upstream is unreachable. -/
def mergeEnvUnreachable : MergeEnv :=
  { rendererURLConfigured := true, upstreamUnreachable := true, upstreamStatusCode := 200,
    readBodyFails := false, errorBodyHasErrorField := false, successBodyParses := true,
    dbRecordFails := false }

/-- A merge environment in which the merge succeeds upstream but the database
record step fails. -/
def mergeEnvDbFail : MergeEnv :=
  { rendererURLConfigured := true, upstreamUnreachable := false, upstreamStatusCode := 200,
    readBodyFails := false, errorBodyHasErrorField := false, successBodyParses := true,
    dbRecordFails := true }

/-- A stored project whose video URL lives on the internal R2 domain. -/
def r2Row : ManimProject :=
  { id := 1, userID := 7, name := "R", description := "", prompt := "p",
    renderStatus := "completed",
    videoURL := some "https://41eca3477bd94f0eb869bef997e35147.r2.dev/videos/v.mp4" }
-- Basic lemmas about the store operations.

theorem findManimProjectByID_id {s : List ManimProject} {pid : Nat} {ex : ManimProject}
    (h : findManimProjectByID s pid = some ex) : ex.id = pid := by
  induction s with
  | nil => simp [findManimProjectByID] at h
  | cons q t ih =>
    by_cases hq : q.id = pid
    · simp [findManimProjectByID, hq] at h
      subst h; exact hq
    · simp [findManimProjectByID, hq] at h
      exact ih h

theorem hasRowIdUser_of_find {s : List ManimProject} {pid : Nat} {ex : ManimProject}
    (h : findManimProjectByID s pid = some ex) :
    hasRowIdUser s ex.id ex.userID = true := by
  induction s with
  | nil => simp [findManimProjectByID] at h
  | cons q t ih =>
    by_cases hq : q.id = pid
    · simp [findManimProjectByID, hq] at h
      subst h
      simp [hasRowIdUser]
    · simp [findManimProjectByID, hq] at h
      have := ih h
      simp [hasRowIdUser]
      exact Or.inr this

theorem findManimProjectByID_updateRows {s : List ManimProject} {pid : Nat}
    {ex p : ManimProject} (hfind : findManimProjectByID s pid = some ex)
    (hid : p.id = ex.id) (huid : p.userID = ex.userID) :
    findManimProjectByID (updateRows p s) pid = some p := by
  have hexid : ex.id = pid := findManimProjectByID_id hfind
  induction s with
  | nil => simp [findManimProjectByID] at hfind
  | cons q t ih =>
    by_cases hq : q.id = pid
    · simp [findManimProjectByID, hq] at hfind
      subst hfind
      have hmatch : q.id = p.id ∧ q.userID = p.userID := ⟨hid.symm, huid.symm⟩
      simp only [updateRows]
      rw [if_pos hmatch]
      simp only [findManimProjectByID]
      rw [if_pos (hid.trans hexid)]
    · simp [findManimProjectByID, hq] at hfind
      have hq' : ¬(q.id = p.id ∧ q.userID = p.userID) := by
        intro ⟨h1, _⟩
        exact hq (h1.trans (hid.trans hexid))
      simp [updateRows, if_neg hq', findManimProjectByID, hq]
      exact ih hfind

/-- Composite helper: after a successful `UPDATE` of a row that was just
fetched by id, the fetch at the same id returns the new row. -/
theorem updateManimProject_of_find {s : List ManimProject} {pid : Nat}
    {ex p : ManimProject} (hfind : findManimProjectByID s pid = some ex)
    (hid : p.id = ex.id) (huid : p.userID = ex.userID) :
    updateManimProject s p = some (updateRows p s) ∧
      findManimProjectByID (updateRows p s) pid = some p := by
  constructor
  · have h1 := hasRowIdUser_of_find hfind
    unfold updateManimProject
    rw [hid, huid, h1]
    simp
  · exact findManimProjectByID_updateRows hfind hid huid


/-- C1: for every render callback naming an existing project, the stored
render status becomes the callback status verbatim; the stored URL is set to
the callback URL exactly when the status is `"completed"` and the URL is
non-empty and not `"N/A"`, is cleared when the status is `"completed"` with a
missing or sentinel URL, and is cleared for any other status. -/
theorem render_callback_reconciles_status_and_url
    (s : List ManimProject) (cb : RenderCallbackRequest) (project : ManimProject)
    (hfind : findManimProjectByID s cb.projectID = some project) :
    ∃ p', findManimProjectByID (handleRenderCallback s cb).1 cb.projectID = some p' ∧
      p'.renderStatus = cb.status ∧
      (cb.status = "completed" → cb.videoURL ≠ "" → cb.videoURL ≠ "N/A" →
        p'.videoURL = some cb.videoURL) ∧
      (cb.status = "completed" → (cb.videoURL = "" ∨ cb.videoURL = "N/A") →
        p'.renderStatus = "completed" ∧ p'.videoURL = none) ∧
      (cb.status ≠ "completed" → p'.videoURL = none) := by
  by_cases hc : cb.status = "completed"
  · by_cases hu : cb.videoURL ≠ "" ∧ cb.videoURL ≠ "N/A"
    · obtain ⟨hupd, hf2⟩ := updateManimProject_of_find
        (p := { project with renderStatus := cb.status, videoURL := some cb.videoURL })
        hfind rfl rfl
      refine ⟨{ project with renderStatus := cb.status, videoURL := some cb.videoURL },
        ?_, rfl, fun _ _ _ => rfl, ?_, ?_⟩
      · simp only [handleRenderCallback, hfind, if_pos hc, if_pos hu, hupd]
        exact hf2
      · rintro _ (h | h)
        · exact absurd h hu.1
        · exact absurd h hu.2
      · intro h; exact absurd hc h
    · obtain ⟨hupd, hf2⟩ := updateManimProject_of_find
        (p := { project with renderStatus := cb.status, videoURL := none })
        hfind rfl rfl
      refine ⟨{ project with renderStatus := cb.status, videoURL := none },
        ?_, rfl, ?_, fun _ _ => ⟨hc, rfl⟩, fun h => absurd hc h⟩
      · simp only [handleRenderCallback, hfind, if_pos hc, if_neg hu, hupd]
        exact hf2
      · intro _ h2 h3
        exact absurd ⟨h2, h3⟩ hu
  · obtain ⟨hupd, hf2⟩ := updateManimProject_of_find
      (p := { project with renderStatus := cb.status, videoURL := none })
      hfind rfl rfl
    refine ⟨{ project with renderStatus := cb.status, videoURL := none },
      ?_, rfl, fun h => absurd h hc, fun h => absurd h hc, fun _ => rfl⟩
    simp only [handleRenderCallback, hfind, if_neg hc, hupd]
    exact hf2

/-- C1 witness: the reconciliation theorem instantiated on a concrete
completed callback with a real URL. -/
theorem render_callback_reconciles_status_and_url_witness :
    ∃ p', findManimProjectByID (handleRenderCallback cbStoreA cbReqCompleted).1 1 = some p' ∧
      p'.renderStatus = "completed" ∧ p'.videoURL = some "https://cdn.example/v.mp4" := by
  obtain ⟨p', hf, hs, hset, _, _⟩ :=
    render_callback_reconciles_status_and_url cbStoreA cbReqCompleted
      { id := 1, userID := 7, name := "Demo", description := "d", prompt := "draw a circle",
        renderStatus := "generating", videoURL := none } (by decide)
  exact ⟨p', hf, hs, hset rfl (by decide) (by decide)⟩

/-- C2 counterexample: on a whitespace-only prompt the trigger handler rejects
the request before any outbound call, but contrary to the claim it sets no
`failed: <stage>` tag — the stored render status stays `"pending"`, which does
not even begin with `"failed"`. -/
theorem trigger_empty_prompt_no_failure_tag_counterexample :
    (triggerManimGenerationAndRender trigStoreEmptyPrompt 1 7 trigEnvHappy).llmCalled = false ∧
    (triggerManimGenerationAndRender trigStoreEmptyPrompt 1 7 trigEnvHappy).rendererCalled
      = false ∧
    (triggerManimGenerationAndRender trigStoreEmptyPrompt 1 7 trigEnvHappy).store
      = trigStoreEmptyPrompt ∧
    (findManimProjectByID
        (triggerManimGenerationAndRender trigStoreEmptyPrompt 1 7 trigEnvHappy).store 1).map
        ManimProject.renderStatus = some "pending" ∧
    isPrefixL "failed".data "pending".data = false := by decide

/-- C2 (amended): a trigger request on an owned project with an empty or
whitespace-only prompt is rejected with 400 before any outbound call and
leaves the store — in particular the render-status field — unchanged; the
`failed: <stage>` terminal tags are written only for LLM errors
(`failed: code_gen_error`), request-construction errors
(`failed: renderer_req_error`), an unreachable renderer
(`failed: renderer_comm_error`), and a non-accepted renderer status code
(`failed: renderer_status_<code>`). -/
theorem trigger_empty_prompt_rejected_without_failure_tag
    (s : List ManimProject) (pid uid : Nat) (env : TriggerEnv)
    (project : ManimProject) (code : String) (rc : Nat)
    (hfind : findManimProjectByID s pid = some project)
    (hown : project.userID = uid) :
    (goTrimSpace project.prompt = "" →
      triggerManimGenerationAndRender s pid uid env =
        ⟨s, 400, false, none, false, false⟩) ∧
    (goTrimSpace project.prompt ≠ "" → env.llm = .failure →
      findManimProjectByID (triggerManimGenerationAndRender s pid uid env).store pid =
        some { project with renderStatus := "failed: code_gen_error" }) ∧
    (goTrimSpace project.prompt ≠ "" → env.llm = .ok code →
      env.requestConstructionFails = true →
      findManimProjectByID (triggerManimGenerationAndRender s pid uid env).store pid =
        some { project with renderStatus := "failed: renderer_req_error" }) ∧
    (goTrimSpace project.prompt ≠ "" → env.llm = .ok code →
      env.requestConstructionFails = false → env.renderer = .unreachable →
      findManimProjectByID (triggerManimGenerationAndRender s pid uid env).store pid =
        some { project with renderStatus := "failed: renderer_comm_error" }) ∧
    (goTrimSpace project.prompt ≠ "" → env.llm = .ok code →
      env.requestConstructionFails = false → env.renderer = .reply rc → rc ≠ 202 →
      findManimProjectByID (triggerManimGenerationAndRender s pid uid env).store pid =
        some { project with renderStatus := "failed: renderer_status_" ++ toString rc }) := by
  obtain ⟨hupd1, hf1⟩ := updateManimProject_of_find
    (p := { project with renderStatus := "generating" }) hfind rfl rfl
  refine ⟨?_, ?_, ?_, ?_, ?_⟩
  · intro hp
    simp only [triggerManimGenerationAndRender, hfind, if_pos hown, if_pos hp]
  · intro hp hl
    obtain ⟨hupd2, hf2⟩ := updateManimProject_of_find
      (p := { project with renderStatus := "failed: code_gen_error" }) hf1 rfl rfl
    simp only [triggerManimGenerationAndRender, hfind, if_pos hown, if_neg hp, hl,
      hupd1, Option.getD_some, hupd2]
    exact hf2
  · intro hp hl hrq
    obtain ⟨hupd2, hf2⟩ := updateManimProject_of_find
      (p := { project with renderStatus := "failed: renderer_req_error" }) hf1 rfl rfl
    simp only [triggerManimGenerationAndRender, hfind, if_pos hown, if_neg hp, hl, hrq,
      if_true, hupd1, Option.getD_some, hupd2]
    exact hf2
  · intro hp hl hrq hur
    obtain ⟨hupd2, hf2⟩ := updateManimProject_of_find
      (p := { project with renderStatus := "failed: renderer_comm_error" }) hf1 rfl rfl
    simp only [triggerManimGenerationAndRender, hfind, if_pos hown, if_neg hp, hl, hrq,
      if_false, hur, hupd1, Option.getD_some, hupd2]
    exact hf2
  · intro hp hl hrq hre h202
    obtain ⟨hupd2, hf2⟩ := updateManimProject_of_find
      (p := { project with renderStatus := "failed: renderer_status_" ++ toString rc })
      hf1 rfl rfl
    simp only [triggerManimGenerationAndRender, hfind, if_pos hown, if_neg hp, hl, hrq,
      if_false, hre, if_neg h202, hupd1, Option.getD_some, hupd2]
    exact hf2

/-- C2 witness: the amended theorem instantiated on a whitespace-only prompt
(rejection, no calls, untouched store) and on an LLM failure (terminal tag
`failed: code_gen_error`). -/
theorem trigger_empty_prompt_rejected_without_failure_tag_witness :
    triggerManimGenerationAndRender trigStoreEmptyPrompt 1 7 trigEnvHappy =
      ⟨trigStoreEmptyPrompt, 400, false, none, false, false⟩ ∧
    findManimProjectByID
        (triggerManimGenerationAndRender trigStoreReady 1 7 trigEnvLLMFail).store 1 =
      some { id := 1, userID := 7, name := "P", description := "d",
             prompt := "draw a circle", renderStatus := "failed: code_gen_error",
             videoURL := none } := by
  constructor
  · have h := trigger_empty_prompt_rejected_without_failure_tag trigStoreEmptyPrompt 1 7
      trigEnvHappy ⟨1, 7, "P", "d", "   ", "pending", none⟩ "c" 0 (by decide) (by decide)
    exact h.1 (by decide)
  · have h := trigger_empty_prompt_rejected_without_failure_tag trigStoreReady 1 7
      trigEnvLLMFail ⟨1, 7, "P", "d", "draw a circle", "pending", none⟩ "c" 0
      (by decide) (by decide)
    exact h.2.1 (by decide) (by decide)

/-- C3 counterexample: project 1 exists and is owned by user 2, yet user 3's
delete request yields 404 Not Found, not 403 Forbidden. -/
theorem delete_wrong_owner_not_forbidden_counterexample :
    findManimProjectByID delStoreOtherOwner 1 =
      some ⟨1, 2, "Demo", "d", "p", "pending", none⟩ ∧
    (deleteManimProjectHandler delStoreOtherOwner 1 3).2.statusCode = 404 ∧
    (deleteManimProjectHandler delStoreOtherOwner 1 3).2.statusCode ≠ 403 := by decide

/-- C3 (amended): the delete handler never fetches the row; its single
ownership-scoped `DELETE` removes nothing both when the row is absent and when
it is owned by someone else, and both cases answer 404 Not Found (the
Forbidden-on-mismatch distinction of get and update does not apply to
delete). -/
theorem delete_absent_or_foreign_row_not_found
    (s : List ManimProject) (pid uid : Nat)
    (h : hasRowIdUser s pid uid = false) :
    deleteManimProjectHandler s pid uid = (s, responseWithError 404 false) := by
  simp [deleteManimProjectHandler, deleteManimProjectQuery, h]

/-- C3 witness: the amended theorem instantiated on a store whose only row is
owned by another user. -/
theorem delete_absent_or_foreign_row_not_found_witness :
    hasRowIdUser delStoreOtherOwner 1 3 = false ∧
    deleteManimProjectHandler delStoreOtherOwner 1 3 =
      (delStoreOtherOwner, responseWithError 404 false) :=
  ⟨by decide, delete_absent_or_foreign_row_not_found delStoreOtherOwner 1 3 (by decide)⟩

/-- C4 counterexample: user 7 already owns a project stored as "Demo"; a
creation request named " Demo " (whose stored, trimmed form is "Demo") passes
the handler's raw-name duplicate check and then dies on the unique index,
answering 500 Internal, not 409 Conflict. -/
theorem create_padded_name_conflict_missed_counterexample :
    hasRowUserName createStoreDemo 7 (goTrimSpace " Demo ") = true ∧
    (createManimProjectHandler createStoreDemo 7 createReqPadded 2).2 =
      responseWithError 500 false ∧
    (createManimProjectHandler createStoreDemo 7 createReqPadded 2).2.statusCode ≠ 409 ∧
    (createManimProjectHandler createStoreDemo 7 createReqPadded 2).1 = createStoreDemo := by
  decide

/-- C4 (amended): creation answers 409 Conflict exactly when a project whose
stored name equals the raw (untrimmed) requested name exists for the owner;
when no such row exists and the trimmed name is also free, creation succeeds
with 201 and stores the trimmed fields with status `"pending"`; but when the
raw lookup misses while the trimmed name collides with an existing stored
name, the insert fails on the unique index and the handler answers 500
Internal instead of Conflict. -/
theorem create_conflict_check_uses_raw_name
    (s : List ManimProject) (uid : Nat) (req : CreateProjectRequest) (newId : Nat) :
    ((∃ q, findManimProjectByNameAndUserID s req.name uid = some q) →
      createManimProjectHandler s uid req newId = (s, responseWithError 409 false)) ∧
    (findManimProjectByNameAndUserID s req.name uid = none →
      hasRowUserName s uid (goTrimSpace req.name) = false →
      createManimProjectHandler s uid req newId =
        (s ++ [{ id := newId, userID := uid, name := goTrimSpace req.name,
                 description := goTrimSpace req.description,
                 prompt := goTrimSpace req.prompt,
                 renderStatus := "pending", videoURL := none }],
         responseWithSuccess 201)) ∧
    (findManimProjectByNameAndUserID s req.name uid = none →
      hasRowUserName s uid (goTrimSpace req.name) = true →
      createManimProjectHandler s uid req newId = (s, responseWithError 500 false)) := by
  refine ⟨?_, ?_, ?_⟩
  · rintro ⟨q, hq⟩
    simp only [createManimProjectHandler, hq]
  · intro hraw htrim
    simp [createManimProjectHandler, hraw, createManimProjectQuery, htrim]
  · intro hraw htrim
    simp [createManimProjectHandler, hraw, createManimProjectQuery, htrim]

/-- C4 witness: the amended theorem instantiated on the padded-name collision
scenario (raw lookup misses, trimmed name collides, Internal error). -/
theorem create_conflict_check_uses_raw_name_witness :
    findManimProjectByNameAndUserID createStoreDemo " Demo " 7 = none ∧
    hasRowUserName createStoreDemo 7 (goTrimSpace " Demo ") = true ∧
    createManimProjectHandler createStoreDemo 7 createReqPadded 2 =
      (createStoreDemo, responseWithError 500 false) := by
  refine ⟨by decide, by decide, ?_⟩
  exact (create_conflict_check_uses_raw_name createStoreDemo 7 createReqPadded 2).2.2
    (by decide) (by decide)

/-- Field-level description of the update handler's partial assignment step. -/
theorem applyUpdateFields_spec (ex : ManimProject) (req : UpdateProjectRequest) :
    (applyUpdateFields ex req).id = ex.id ∧
    (applyUpdateFields ex req).userID = ex.userID ∧
    (req.name = none → (applyUpdateFields ex req).name = ex.name) ∧
    (∀ n, req.name = some n → (applyUpdateFields ex req).name = goTrimSpace n) ∧
    (req.description = none → (applyUpdateFields ex req).description = ex.description) ∧
    (∀ d, req.description = some d →
      (applyUpdateFields ex req).description = goTrimSpace d) ∧
    (req.prompt = none → (applyUpdateFields ex req).prompt = ex.prompt) ∧
    (∀ pr, req.prompt = some pr → (applyUpdateFields ex req).prompt = goTrimSpace pr) ∧
    (applyUpdateFields ex req).renderStatus = ex.renderStatus ∧
    (applyUpdateFields ex req).videoURL = ex.videoURL := by
  rcases req with ⟨n, d, p⟩
  cases n <;> cases d <;> cases p <;> simp [applyUpdateFields]

/-- C5: on an owned project the update is partial — when it answers 200 the
stored row carries the trimmed supplied fields and keeps every unsupplied
field (including render status and video URL) as fetched; the per-owner
name-uniqueness lookup runs only when a name is supplied whose trimmed form
differs from the current stored name; and when every row the lookup could
return is the row being updated itself, no Conflict is raised and the update
answers 200. -/
theorem update_partial_with_conditional_conflict_check
    (s : List ManimProject) (pid uid : Nat) (req : UpdateProjectRequest)
    (ex : ManimProject)
    (hfind : findManimProjectByID s pid = some ex)
    (hown : ex.userID = uid) :
    ((updateManimProjectHandler s pid uid req).response = responseWithSuccess 200 →
      ∃ p', findManimProjectByID (updateManimProjectHandler s pid uid req).store pid =
          some p' ∧
        (req.name = none → p'.name = ex.name) ∧
        (∀ n, req.name = some n → p'.name = goTrimSpace n) ∧
        (req.description = none → p'.description = ex.description) ∧
        (∀ d, req.description = some d → p'.description = goTrimSpace d) ∧
        (req.prompt = none → p'.prompt = ex.prompt) ∧
        (∀ pr, req.prompt = some pr → p'.prompt = goTrimSpace pr) ∧
        p'.renderStatus = ex.renderStatus ∧ p'.videoURL = ex.videoURL) ∧
    ((updateManimProjectHandler s pid uid req).nameConflictChecked = true →
      ∃ n, req.name = some n ∧ goTrimSpace n ≠ ex.name) ∧
    ((∀ n, req.name = some n →
        ∀ q, findManimProjectByNameAndUserID s (goTrimSpace n) uid = some q →
          q.id = ex.id) →
      (updateManimProjectHandler s pid uid req).response = responseWithSuccess 200) := by
  obtain ⟨haid, hauid, h3, h4, h5, h6, h7, h8, h9, h10⟩ := applyUpdateFields_spec ex req
  obtain ⟨hupd, hfind2⟩ := updateManimProject_of_find hfind haid hauid
  have hfin : ∀ c : Bool, updateFinish s (applyUpdateFields ex req) c =
      ⟨updateRows (applyUpdateFields ex req) s, responseWithSuccess 200, c⟩ := by
    intro c
    simp only [updateFinish, hupd]
  have hgood : ∃ p', findManimProjectByID (updateRows (applyUpdateFields ex req) s) pid =
      some p' ∧
      (req.name = none → p'.name = ex.name) ∧
      (∀ n, req.name = some n → p'.name = goTrimSpace n) ∧
      (req.description = none → p'.description = ex.description) ∧
      (∀ d, req.description = some d → p'.description = goTrimSpace d) ∧
      (req.prompt = none → p'.prompt = ex.prompt) ∧
      (∀ pr, req.prompt = some pr → p'.prompt = goTrimSpace pr) ∧
      p'.renderStatus = ex.renderStatus ∧ p'.videoURL = ex.videoURL :=
    ⟨applyUpdateFields ex req, hfind2, h3, h4, h5, h6, h7, h8, h9, h10⟩
  cases hn : req.name with
  | none =>
    have hh : updateManimProjectHandler s pid uid req =
        ⟨updateRows (applyUpdateFields ex req) s, responseWithSuccess 200, false⟩ := by
      simp only [updateManimProjectHandler, hfind, if_pos hown, hn, hfin]
    rw [hn] at hgood
    rw [hh]
    exact ⟨fun _ => hgood, fun hc => by simp at hc, fun _ => rfl⟩
  | some n =>
    by_cases hne : goTrimSpace n = ex.name
    · have hh : updateManimProjectHandler s pid uid req =
          ⟨updateRows (applyUpdateFields ex req) s, responseWithSuccess 200, false⟩ := by
        simp only [updateManimProjectHandler, hfind, if_pos hown, hn,
          if_neg (not_not_intro hne), hfin]
      rw [hn] at hgood
      rw [hh]
      exact ⟨fun _ => hgood, fun hc => by simp at hc, fun _ => rfl⟩
    · cases hcf : findManimProjectByNameAndUserID s (goTrimSpace n) uid with
      | none =>
        have hh : updateManimProjectHandler s pid uid req =
            ⟨updateRows (applyUpdateFields ex req) s, responseWithSuccess 200, true⟩ := by
          simp only [updateManimProjectHandler, hfind, if_pos hown, hn, if_pos hne, hcf,
            hfin]
        rw [hn] at hgood
        rw [hh]
        exact ⟨fun _ => hgood, fun _ => ⟨n, rfl, hne⟩, fun _ => rfl⟩
      | some q =>
        by_cases hqid : q.id = ex.id
        · have hh : updateManimProjectHandler s pid uid req =
              ⟨updateRows (applyUpdateFields ex req) s, responseWithSuccess 200, true⟩ := by
            simp only [updateManimProjectHandler, hfind, if_pos hown, hn, if_pos hne, hcf,
              if_neg (not_not_intro hqid), hfin]
          rw [hn] at hgood
          rw [hh]
          exact ⟨fun _ => hgood, fun _ => ⟨n, rfl, hne⟩, fun _ => rfl⟩
        · have hh : updateManimProjectHandler s pid uid req =
              ⟨s, responseWithError 409 false, true⟩ := by
            simp only [updateManimProjectHandler, hfind, if_pos hown, hn, if_pos hne, hcf,
              if_pos hqid]
          rw [hh]
          refine ⟨?_, fun _ => ⟨n, rfl, hne⟩, ?_⟩
          · intro habs
            simp [responseWithError, responseWithSuccess] at habs
          · intro hforall
            exact absurd (hforall n rfl q hcf) hqid

/-- C5 witness: a name-only partial update on a concrete store succeeds,
changes the name, and keeps description and prompt as fetched. -/
theorem update_partial_with_conditional_conflict_check_witness :
    (updateManimProjectHandler updStoreOld 1 7 updReqNameOnly).response =
      responseWithSuccess 200 ∧
    ∃ q, findManimProjectByID
        (updateManimProjectHandler updStoreOld 1 7 updReqNameOnly).store 1 = some q ∧
      q.name = "New" ∧ q.description = "d0" ∧ q.prompt = "p0" := by
  have h := update_partial_with_conditional_conflict_check updStoreOld 1 7 updReqNameOnly
    ⟨1, 7, "Old", "d0", "p0", "pending", none⟩ (by decide) (by decide)
  have hside : ∀ n, updReqNameOnly.name = some n →
      ∀ q, findManimProjectByNameAndUserID updStoreOld (goTrimSpace n) 7 = some q →
        q.id = 1 := by
    intro n hn q hq
    have hn' : n = "New" := by
      simp [updReqNameOnly] at hn
      exact hn.symm
    subst hn'
    rw [(by decide : findManimProjectByNameAndUserID updStoreOld (goTrimSpace "New") 7
      = none)] at hq
    simp at hq
  have h200 := h.2.2 hside
  obtain ⟨q, hfq, _, hnameSome, hdescNone, _, hpromptNone, _, _, _⟩ := h.1 h200
  refine ⟨h200, q, hfq, ?_, hdescNone rfl, hpromptNone rfl⟩
  rw [hnameSome "New" rfl]
  decide

/-- C6: when the render service accepts (202), the trigger handler leaves the
project's persisted render status at `"generating"` with every other stored
field as fetched, and only the response body carries the
`"rendering_initiated"` tag (which is distinct from the stored status, so it
is never persisted); the handler answers 202. -/
theorem trigger_success_keeps_generating_status
    (s : List ManimProject) (pid uid : Nat) (env : TriggerEnv)
    (project : ManimProject) (code : String)
    (hfind : findManimProjectByID s pid = some project)
    (hown : project.userID = uid)
    (hp : goTrimSpace project.prompt ≠ "")
    (hl : env.llm = .ok code)
    (hrq : env.requestConstructionFails = false)
    (hre : env.renderer = .reply 202) :
    findManimProjectByID (triggerManimGenerationAndRender s pid uid env).store pid =
      some { project with renderStatus := "generating" } ∧
    (triggerManimGenerationAndRender s pid uid env).bodyStatus =
      some "rendering_initiated" ∧
    (triggerManimGenerationAndRender s pid uid env).httpStatus = 202 ∧
    ({ project with renderStatus := "generating" } : ManimProject).renderStatus ≠
      "rendering_initiated" := by
  obtain ⟨hupd1, hf1⟩ := updateManimProject_of_find
    (p := { project with renderStatus := "generating" }) hfind rfl rfl
  have hh : triggerManimGenerationAndRender s pid uid env =
      ⟨updateRows { project with renderStatus := "generating" } s, 202, true,
        some "rendering_initiated", true, true⟩ := by
    simp only [triggerManimGenerationAndRender, hfind, if_pos hown, if_neg hp, hl, hrq,
      hre, hupd1, Option.getD_some]
    simp
  rw [hh]
  exact ⟨hf1, rfl, rfl, by simp⟩

/-- C6 witness: the accepted-render theorem instantiated on a concrete ready
store and a fully successful environment. -/
theorem trigger_success_keeps_generating_status_witness :
    findManimProjectByID
        (triggerManimGenerationAndRender trigStoreReady 1 7 trigEnvHappy).store 1 =
      some ⟨1, 7, "P", "d", "draw a circle", "generating", none⟩ ∧
    (triggerManimGenerationAndRender trigStoreReady 1 7 trigEnvHappy).bodyStatus =
      some "rendering_initiated" := by
  have h := trigger_success_keeps_generating_status trigStoreReady 1 7 trigEnvHappy
    ⟨1, 7, "P", "d", "draw a circle", "pending", none⟩ "code" (by decide) (by decide)
    (by decide) (by decide) (by decide) (by decide)
  exact ⟨h.1, h.2.1⟩

/-- C7 counterexample: the render service replies 503 to a merge request, and
the handler forwards 503 to the client — not 502 Bad Gateway as claimed. -/
theorem merge_upstream_error_status_forwarded_counterexample :
    (mergeVideosHandler ["a"] mergeEnv503).statusCode = 503 ∧
    (mergeVideosHandler ["a"] mergeEnv503).statusCode ≠ 502 ∧
    (mergeVideosHandler ["a"] mergeEnv503).success = false := by decide

/-- C7 (amended): an unreachable render service is surfaced as 502 Bad
Gateway; a reachable service replying with a non-success status has that
upstream status code forwarded verbatim in an error envelope (so only the
transport failure maps to Bad Gateway); and a failure to record the
(merged-id, URL) pair after a successful (200) upstream merge is surfaced as
500 Internal. -/
theorem merge_failure_surfacing
    (ids : List String) (env : MergeEnv)
    (hids : ids.isEmpty = false)
    (hcfg : env.rendererURLConfigured = true) :
    (env.upstreamUnreachable = true →
      mergeVideosHandler ids env = responseWithError 502 false) ∧
    (env.upstreamUnreachable = false → env.readBodyFails = false →
      env.upstreamStatusCode ≠ 200 →
      (mergeVideosHandler ids env).statusCode = env.upstreamStatusCode ∧
      (mergeVideosHandler ids env).success = false) ∧
    (env.upstreamUnreachable = false → env.readBodyFails = false →
      env.upstreamStatusCode = 200 → env.successBodyParses = true →
      env.dbRecordFails = true →
      mergeVideosHandler ids env = responseWithError 500 false) := by
  refine ⟨?_, ?_, ?_⟩
  · intro hu
    simp [mergeVideosHandler, hids, hcfg, hu]
  · intro hu hrb hst
    by_cases hef : env.errorBodyHasErrorField = true
    · simp [mergeVideosHandler, hids, hcfg, hu, hrb, hst, hef, responseWithError]
    · simp [mergeVideosHandler, hids, hcfg, hu, hrb, hst, hef, responseWithError]
  · intro hu hrb hst hsb hdb
    simp [mergeVideosHandler, hids, hcfg, hu, hrb, hst, hsb, hdb]

/-- C7 witness: the surfacing theorem instantiated on an unreachable upstream
(502) and on a database-record failure after a successful merge (500). -/
theorem merge_failure_surfacing_witness :
    mergeVideosHandler ["a"] mergeEnvUnreachable = responseWithError 502 false ∧
    mergeVideosHandler ["a"] mergeEnvDbFail = responseWithError 500 false := by
  constructor
  · exact (merge_failure_surfacing ["a"] mergeEnvUnreachable (by decide) (by decide)).1
      (by decide)
  · exact (merge_failure_surfacing ["a"] mergeEnvDbFail (by decide) (by decide)).2.2
      (by decide) (by decide) (by decide) (by decide) (by decide)

/-- C8: token round trip — validating an unexpired token produced by the
issuer under the same secret succeeds and yields exactly the embedded claims:
the same user id, email and username, subject equal to the user id's string
form, issuer `"manim-orchestrator-api"`, and expiry a fixed 24-hour lifetime
after issuance. -/
theorem token_round_trip
    (userID : Nat) (email username jwtSecret : String) (tIssue tVerify : Nat)
    (h1 : tIssue ≤ tVerify) (h2 : tVerify < tIssue + tokenLifetimeSeconds) :
    validateToken tVerify jwtSecret
        (generateToken tIssue jwtSecret userID email username) =
      some { userID := userID, email := email, username := username,
             expiresAt := tIssue + tokenLifetimeSeconds, issuedAt := tIssue,
             notBefore := tIssue, issuer := "manim-orchestrator-api",
             subject := toString userID } ∧
    tokenLifetimeSeconds = 24 * 60 * 60 := by
  refine ⟨?_, rfl⟩
  simp [validateToken, generateToken, signHMAC, h1, h2]

/-- C8 witness: the round-trip theorem instantiated on a concrete user and a
verification time inside the 24-hour window. -/
theorem token_round_trip_witness :
    validateToken 1000 "secret" (generateToken 500 "secret" 42 "a@b.c" "alice") =
      some { userID := 42, email := "a@b.c", username := "alice",
             expiresAt := 500 + tokenLifetimeSeconds, issuedAt := 500, notBefore := 500,
             issuer := "manim-orchestrator-api", subject := toString 42 } :=
  (token_round_trip 42 "a@b.c" "alice" "secret" 500 1000 (by decide) (by decide)).1

-- Lemmas about the Go string helpers, used by the C9 theorem.

theorem isPrefixL_self_append (p r : List Char) : isPrefixL p (p ++ r) = true := by
  induction p with
  | nil => simp [isPrefixL]
  | cons a p ih => simp [isPrefixL, ih]

theorem hasSub_of_isPrefixL {sub s : List Char} (h : isPrefixL sub s = true) :
    hasSub s sub = true := by
  cases s with
  | nil => simpa [hasSub] using h
  | cons c t => simp [hasSub, h]

theorem hasSub_append_left (pre s sub : List Char) (h : hasSub s sub = true) :
    hasSub (pre ++ s) sub = true := by
  induction pre with
  | nil => simpa using h
  | cons c t ih =>
    simp only [List.cons_append, hasSub]
    split
    · rfl
    · exact ih

theorem replFirst_append (old new r : List Char) :
    replFirst old new (old ++ r) = new ++ r := by
  cases old with
  | nil =>
    cases r with
    | nil => simp [replFirst]
    | cons c t => simp [replFirst, isPrefixL]
  | cons a p =>
    simp only [List.cons_append, replFirst, List.append_eq]
    have hpre := isPrefixL_self_append (a :: p) r
    rw [List.cons_append] at hpre
    rw [if_pos hpre]
    simp [List.drop_succ_cons, List.drop_left]

/-- C9: the list endpoint rewrites a stored video URL living on the internal
R2 domain to the public R2 domain, while the get-by-id endpoint returns the
stored URL unmodified; the two rewritten and stored URLs are distinct, so for
such a row the two endpoints answer different video_url strings. -/
theorem list_rewrites_internal_r2_url_get_does_not
    (p : ManimProject) (rest : String)
    (hurl : p.videoURL = some (internalR2Base ++ rest)) :
    getUserManimProjects [p] p.userID =
      [{ newProjectResponse p with videoURL := publicR2Base ++ rest }] ∧
    (getManimProjectByIDHandler [p] p.id p.userID).2 = some (newProjectResponse p) ∧
    (newProjectResponse p).videoURL = internalR2Base ++ rest ∧
    publicR2Base ++ rest ≠ internalR2Base ++ rest := by
  have hpr : (newProjectResponse p).videoURL = internalR2Base ++ rest := by
    simp [newProjectResponse, hurl]
  have hne : (internalR2Base ++ rest) ≠ "" := by
    intro hcontra
    have := congrArg String.length hcontra
    rw [String.length_append] at this
    have h2 : internalR2Base.length = 47 := by decide
    rw [h2] at this
    simp at this
  have hcontains : goContains (internalR2Base ++ rest) internalR2Domain = true := by
    unfold goContains
    rw [String.data_append]
    have hd : internalR2Base.data = "https://".data ++ internalR2Domain.data := by decide
    rw [hd, List.append_assoc]
    exact hasSub_append_left _ _ _ (hasSub_of_isPrefixL (isPrefixL_self_append _ _))
  have hrepl : goReplaceOnce (internalR2Base ++ rest) internalR2Base publicR2Base =
      publicR2Base ++ rest := by
    unfold goReplaceOnce
    rw [String.data_append, replFirst_append]
    rfl
  have htrans : transformListVideoURL (newProjectResponse p) =
      { newProjectResponse p with videoURL := publicR2Base ++ rest } := by
    unfold transformListVideoURL
    rw [hpr, if_pos ⟨hne, hcontains⟩, hrepl]
  refine ⟨?_, ?_, hpr, ?_⟩
  · simp [getUserManimProjects, findManimProjectsByUserID, htrans]
  · simp [getManimProjectByIDHandler, findManimProjectByID]
  · intro hcontra
    have := congrArg String.length hcontra
    rw [String.length_append, String.length_append] at this
    have h1 : publicR2Base.length = 51 := by decide
    have h2 : internalR2Base.length = 47 := by decide
    rw [h1, h2] at this
    omega

/-- C9 witness: the list/get divergence realised on a concrete stored row. -/
theorem list_rewrites_internal_r2_url_get_does_not_witness :
    getUserManimProjects [r2Row] 7 =
      [{ id := 1, userID := 7, name := "R", description := "", prompt := "p",
         renderStatus := "completed",
         videoURL := "https://pub-b0b0ca8b1fc2487b82486c56d37c2667.r2.dev/videos/v.mp4" }] ∧
    (getManimProjectByIDHandler [r2Row] 1 7).2 = some
      { id := 1, userID := 7, name := "R", description := "", prompt := "p",
        renderStatus := "completed",
        videoURL := "https://41eca3477bd94f0eb869bef997e35147.r2.dev/videos/v.mp4" } := by
  have h := list_rewrites_internal_r2_url_get_does_not r2Row "/videos/v.mp4" (by decide)
  constructor
  · exact h.1.trans (by decide)
  · exact h.2.1.trans (by decide)

/-- C10: when delete-account runs for a verified email whose user row no
longer exists, the handler answers HTTP 404 through the success-response path
(success: true, no error field); this is the only error-status response
produced through that path — every other `ResponseWithSuccess` call site in
the system uses a non-error status (< 400), and the error path always pairs
its status with success: false. -/
theorem delete_user_absent_row_success_envelope_with_404
    (users : List UserRec) (email : String)
    (h : findUserByEmail users email = none) :
    (deleteUserHandler users email).2.statusCode = 404 ∧
    (deleteUserHandler users email).2.success = true ∧
    (deleteUserHandler users email).2.hasError = false ∧
    (∀ st ∈ successResponsePathStatuses, st < 400) ∧
    (∀ (st : Nat) (d : Bool), (responseWithError st d).success = false) := by
  simp only [deleteUserHandler, h]
  exact ⟨rfl, rfl, rfl, by decide, fun _ _ => rfl⟩

/-- C10 witness: the success-envelope-404 theorem instantiated on an empty
user store. -/
theorem delete_user_absent_row_success_envelope_with_404_witness :
    (deleteUserHandler [] "gone@example.com").2.statusCode = 404 ∧
    (deleteUserHandler [] "gone@example.com").2.success = true ∧
    (deleteUserHandler [] "gone@example.com").2.hasError = false := by
  have h := delete_user_absent_row_success_envelope_with_404 [] "gone@example.com" (by decide)
  exact ⟨h.1, h.2.1, h.2.2.1⟩
